import Mathlib

/-!
Verification of `DadosAbertosBrasil/favoritos.py`.

The module is embedded shallowly:

* pure string construction (`bandeira`, `brasao`) becomes pure Lean
  functions returning `Option String` (`none` models the resolver's
  `DAB_UFError`);
* functions that call an external collaborator (`bacen.serie`,
  `ipea.serie`, `requests.get(...).json()`, `pandas.read_json`) are
  parameterised by that collaborator, so "dispatches to the collaborator
  with identifier k" is the equation `f serie ... = serie k ...`, and
  "raises without calling the collaborator" is the fact that the result
  is `Except.error _` / `none` for every collaborator;
* Python `str.lower()` / implicit upper-casing is modelled character-wise
  on the Latin-1 letters, the only characters these functions compare;
* Python `int` rendering inside an f-string is `toString (t : Int)`,
  which agrees with Python's `str` on integers.

The state-identifier resolver `parse.uf` lives in `_utils/parse.py`,
which is not part of the sources under verification; it is modelled from
the specification (see its doc-string).
-/

namespace DadosAbertosBrasil

/-- Character-wise model of Python `str.lower` on the Latin-1 range:
ASCII `A`-`Z` and the accented uppercase letters `À`-`Þ` (except `×`)
map 32 code points up; every other character is unchanged. -/
def lowerChar (c : Char) : Char :=
  if 'A' ≤ c ∧ c ≤ 'Z' then Char.ofNat (c.toNat + 32)
  else if 'À' ≤ c ∧ c ≤ 'Þ' ∧ c ≠ '×' then Char.ofNat (c.toNat + 32)
  else c

/-- Model of Python `str.lower` (character-wise, Latin-1 range). -/
def lowerStr (s : String) : String :=
  ⟨s.data.map lowerChar⟩

/-- Character-wise model of Python `str.upper` on the Latin-1 range. -/
def upperChar (c : Char) : Char :=
  if 'a' ≤ c ∧ c ≤ 'z' then Char.ofNat (c.toNat - 32)
  else if 'à' ≤ c ∧ c ≤ 'þ' ∧ c ≠ '÷' then Char.ofNat (c.toNat - 32)
  else c

/-- Model of Python `str.upper` (character-wise, Latin-1 range). -/
def upperStr (s : String) : String :=
  ⟨s.data.map upperChar⟩

/-- The 28 canonical state codes accepted by the resolver without the
`extintos` flag: the 26 states, the federal district `DF` and the
country pseudo-code `BR`.  Listed in the order of the `geojson`
mapping in `favoritos.py`. -/
def ufCodes : List String :=
  ["BR",
   "AC", "AM", "AP", "PA", "RO", "RR", "TO",
   "AL", "BA", "CE", "MA", "PB", "PE", "PI", "RN", "SE",
   "ES", "MG", "RJ", "SP",
   "PR", "RS", "SC",
   "DF", "GO", "MT", "MS"]

/-- The two extinct state codes, accepted only with `extintos=True`. -/
def extinctCodes : List String :=
  ["FN", "GB"]

namespace parse

/-- Modelled from the spec: the State Identifier Resolver `parse.uf` of
module `_utils/parse.py`, which is not among the sources under
verification.  Per spec §4.1 it matches the input case-insensitively
and exactly against the fixed set of canonical two-letter codes,
admits the two extinct codes only when `extintos` is true, and fails
(`DAB_UFError`, here `none`) on everything else.  The full state
names the spec also admits are not modelled; no claim exercises them,
and the resolver's range — the canonical code set — is unchanged. -/
def uf (input : String) (extintos : Bool) : Option String :=
  let norm := upperStr input
  if norm ∈ ufCodes then some norm
  else if extintos ∧ norm ∈ extinctCodes then some norm
  else none

end parse

/-- The static code table inside `geojson` (`favoritos.py`, lines
99-135), in source order. -/
def geojsonMapping : List (String × Nat) :=
  [("BR", 100),
   ("AC", 12), ("AM", 13), ("AP", 16), ("PA", 15),
   ("RO", 11), ("RR", 14), ("TO", 17),
   ("AL", 27), ("BA", 29), ("CE", 23), ("MA", 21), ("PB", 25),
   ("PE", 26), ("PI", 22), ("RN", 24), ("SE", 28),
   ("ES", 32), ("MG", 31), ("RJ", 33), ("SP", 35),
   ("PR", 41), ("RS", 43), ("SC", 42),
   ("DF", 53), ("GO", 52), ("MT", 51), ("MS", 50)]

/-- The URL `geojson` builds from the numeric region code
(`favoritos.py`, line 137). -/
def geojsonUrlOf (n : Nat) : String :=
  "https://raw.githubusercontent.com/tbrugz/geodata-br/master/geojson/geojs-"
    ++ toString n ++ "-mun.json"

/-- `favoritos.geojson`, parameterised by the external HTTP+JSON
collaborator (`requests.get(url).json()`).  A `none` result models the
resolver's `DAB_UFError`. -/
def geojson {J : Type} (fetch : String → J) (uf : String) : Option J :=
  (parse.uf uf false).bind fun code =>
    (geojsonMapping.lookup code).map fun n => fetch (geojsonUrlOf n)

/-- The fixed WikiMedia base URL of `bandeira` and `brasao`
(`favoritos.py`, lines 231 and 302). -/
def wikimediaURL : String :=
  "https://upload.wikimedia.org/wikipedia/commons/thumb/"

/-- The `bandeira` table (lines 233-266).  Each Python f-string
`'pre\x7btamanho\x7dpost'` is embedded as the entry `(code, pre, post)`;
the fragment is reassembled as `pre ++ toString tamanho ++ post`. -/
def bandeiraTable : List (String × String × String) :=
  [("BR", "0/05/Flag_of_Brazil.svg/", "px-Flag_of_Brazil.svg.png"),
   ("AC", "4/4c/Bandeira_do_Acre.svg/", "px-Bandeira_do_Acre.svg.png"),
   ("AM", "6/6b/Bandeira_do_Amazonas.svg/", "px-Bandeira_do_Amazonas.svg.png"),
   ("AL", "8/88/Bandeira_de_Alagoas.svg/", "px-Bandeira_de_Alagoas.svg.png"),
   ("AP", "0/0c/Bandeira_do_Amap%C3%A1.svg/", "px-Bandeira_do_Amap%C3%A1.svg.png"),
   ("BA", "2/28/Bandeira_da_Bahia.svg/", "px-Bandeira_da_Bahia.svg.png"),
   ("CE", "2/2e/Bandeira_do_Cear%C3%A1.svg/", "px-Bandeira_do_Cear%C3%A1.svg.png"),
   ("DF", "3/3c/Bandeira_do_Distrito_Federal_%28Brasil%29.svg/", "px-Bandeira_do_Distrito_Federal_%28Brasil%29.svg.png"),
   ("ES", "4/43/Bandeira_do_Esp%C3%ADrito_Santo.svg/", "px-Bandeira_do_Esp%C3%ADrito_Santo.svg.png"),
   ("GO", "b/be/Flag_of_Goi%C3%A1s.svg/", "px-Flag_of_Goi%C3%A1s.svg.png"),
   ("MA", "4/45/Bandeira_do_Maranh%C3%A3o.svg/", "px-Bandeira_do_Maranh%C3%A3o.svg.png"),
   ("MG", "f/f4/Bandeira_de_Minas_Gerais.svg/", "px-Bandeira_de_Minas_Gerais.svg.png"),
   ("MT", "0/0b/Bandeira_de_Mato_Grosso.svg/", "px-Bandeira_de_Mato_Grosso.svg.png"),
   ("MS", "6/64/Bandeira_de_Mato_Grosso_do_Sul.svg/", "px-Bandeira_de_Mato_Grosso_do_Sul.svg.png"),
   ("PA", "0/02/Bandeira_do_Par%C3%A1.svg/", "px-Bandeira_do_Par%C3%A1.svg.png"),
   ("PB", "b/bb/Bandeira_da_Para%C3%ADba.svg/", "px-Bandeira_da_Para%C3%ADba.svg.png"),
   ("PE", "5/59/Bandeira_de_Pernambuco.svg/", "px-Bandeira_de_Pernambuco.svg.png"),
   ("PI", "3/33/Bandeira_do_Piau%C3%AD.svg/", "px-Bandeira_do_Piau%C3%AD.svg.png"),
   ("PR", "9/93/Bandeira_do_Paran%C3%A1.svg/", "px-Bandeira_do_Paran%C3%A1.svg.png"),
   ("RJ", "7/73/Bandeira_do_estado_do_Rio_de_Janeiro.svg/", "px-Bandeira_do_estado_do_Rio_de_Janeiro.svg.png"),
   ("RO", "f/fa/Bandeira_de_Rond%C3%B4nia.svg/", "px-Bandeira_de_Rond%C3%B4nia.svg.png"),
   ("RN", "3/30/Bandeira_do_Rio_Grande_do_Norte.svg/", "px-Bandeira_do_Rio_Grande_do_Norte.svg.png"),
   ("RR", "9/98/Bandeira_de_Roraima.svg/", "px-Bandeira_de_Roraima.svg.png"),
   ("RS", "6/63/Bandeira_do_Rio_Grande_do_Sul.svg/", "px-Bandeira_do_Rio_Grande_do_Sul.svg.png"),
   ("SC", "1/1a/Bandeira_de_Santa_Catarina.svg/", "px-Bandeira_de_Santa_Catarina.svg.png"),
   ("SE", "b/be/Bandeira_de_Sergipe.svg/", "px-Bandeira_de_Sergipe.svg.png"),
   ("SP", "2/2b/Bandeira_do_estado_de_S%C3%A3o_Paulo.svg/", "px-Bandeira_do_estado_de_S%C3%A3o_Paulo.svg.png"),
   ("TO", "f/ff/Bandeira_do_Tocantins.svg/", "px-Bandeira_do_Tocantins.svg.png"),
   ("FN", "3/3b/Fernando_de_Noronha%2C_PE_-_Bandeira.svg/", "px-Fernando_de_Noronha%2C_PE_-_Bandeira.svg.png"),
   ("GB", "c/c3/Bandeira_do_Estado_da_Guanabara_%281960%E2%80%931975%29.png/", "px-Bandeira_do_Estado_da_Guanabara_%281960%E2%80%931975%29.png")]

/-- The `brasao` table (lines 304-337), embedded like `bandeiraTable`. -/
def brasaoTable : List (String × String × String) :=
  [("BR", "b/bf/Coat_of_arms_of_Brazil.svg/", "px-Coat_of_arms_of_Brazil.svg.png"),
   ("AC", "5/52/Brasão_do_Acre.svg/", "px-Brasão_do_Acre.svg.png"),
   ("AM", "2/2c/Bras%C3%A3o_do_Amazonas.svg/", "px-Bras%C3%A3o_do_Amazonas.svg.png"),
   ("AL", "5/5c/Bras%C3%A3o_do_Estado_de_Alagoas.svg/", "px-Bras%C3%A3o_do_Estado_de_Alagoas.svg.png"),
   ("AP", "6/63/Bras%C3%A3o_do_Amap%C3%A1.svg/", "px-Bras%C3%A3o_do_Amap%C3%A1.svg.png"),
   ("BA", "1/12/Bras%C3%A3o_do_estado_da_Bahia.svg/", "px-Bras%C3%A3o_do_estado_da_Bahia.svg.png"),
   ("CE", "f/fe/Bras%C3%A3o_do_Cear%C3%A1.svg/", "px-Bras%C3%A3o_do_Cear%C3%A1.svg.png"),
   ("DF", "e/e0/Bras%C3%A3o_do_Distrito_Federal_%28Brasil%29.svg/", "px-Bras%C3%A3o_do_Distrito_Federal_%28Brasil%29.svg.png"),
   ("ES", "a/a0/Bras%C3%A3o_do_Esp%C3%ADrito_Santo.svg/", "px-Bras%C3%A3o_do_Esp%C3%ADrito_Santo.svg.png"),
   ("GO", "b/bf/Bras%C3%A3o_de_Goi%C3%A1s.svg/", "px-Bras%C3%A3o_de_Goi%C3%A1s.svg.png"),
   ("MA", "a/ab/Brasão_do_Maranhão.svg/", "px-Brasão_do_Maranhão.svg.png"),
   ("MG", "d/d2/Brasão_de_Minas_Gerais.svg/", "px-Brasão_de_Minas_Gerais.svg.png"),
   ("MT", "0/04/Brasão_de_Mato_Grosso.png/", "px-Brasão_de_Mato_Grosso.png"),
   ("MS", "f/fa/Brasão_de_Mato_Grosso_do_Sul.svg/", "px-Brasão_de_Mato_Grosso_do_Sul.svg.png"),
   ("PA", "b/bc/Brasão_do_Pará.svg/", "px-Brasão_do_Pará.svg.png"),
   ("PB", "f/fd/Brasão_da_Paraíba.svg/", "px-Brasão_da_Paraíba.svg.png"),
   ("PE", "0/04/Brasão_do_estado_de_Pernambuco.svg/", "px-Brasão_do_estado_de_Pernambuco.svg.png"),
   ("PI", "a/ad/Brasão_do_Piauí.svg/", "px-Brasão_do_Piauí.svg.png"),
   ("PR", "4/49/Brasão_do_Paraná.svg/", "px-Brasão_do_Paraná.svg.png"),
   ("RJ", "5/5b/Brasão_do_estado_do_Rio_de_Janeiro.svg/", "px-Brasão_do_estado_do_Rio_de_Janeiro.svg.png"),
   ("RO", "f/f1/Brasão_de_Rondônia.svg/", "px-Brasão_de_Rondônia.svg.png"),
   ("RN", "2/26/Brasão_do_Rio_Grande_do_Norte.svg/", "px-Brasão_do_Rio_Grande_do_Norte.svg.png"),
   ("RR", "e/ed/Brasão_de_Roraima.svg/", "px-Brasão_de_Roraima.svg.png"),
   ("RS", "3/38/Brasão_do_Rio_Grande_do_Sul.svg/", "px-Brasão_do_Rio_Grande_do_Sul.svg.png"),
   ("SC", "6/65/Brasão_de_Santa_Catarina.svg/", "px-Brasão_de_Santa_Catarina.svg.png"),
   ("SE", "5/52/Brasão_de_Sergipe.svg/", "px-Brasão_de_Sergipe.svg.png"),
   ("SP", "1/1a/Brasão_do_estado_de_São_Paulo.svg/", "px-Brasão_do_estado_de_São_Paulo.svg.png"),
   ("TO", "c/cc/Brasão_do_Tocantins.svg/", "px-Brasão_do_Tocantins.svg.png"),
   ("FN", "5/5a/Fernando_de_Noronha%2C_PE_-_Bras%C3%A3o.svg/", "px-Fernando_de_Noronha%2C_PE_-_Bras%C3%A3o.svg.png"),
   ("GB", "c/cf/Bras%C3%A3o_do_Estado_da_Guanabara_%281960%E2%80%931975%29.png/", "px-Bras%C3%A3o_do_Estado_da_Guanabara_%281960%E2%80%931975%29.png")]

/-- `favoritos.bandeira` (lines 201-268): resolves the state identifier
with extinct codes allowed, looks up the per-state fragment,
substitutes `tamanho` and concatenates with the base URL.  Pure string
construction; `none` models the resolver's `DAB_UFError`. -/
def bandeira (uf : String) (tamanho : Int) : Option String :=
  (parse.uf uf true).bind fun code =>
    (bandeiraTable.lookup code).map fun fr =>
      wikimediaURL ++ (fr.1 ++ toString tamanho ++ fr.2)

/-- `favoritos.brasao` (lines 272-339), same shape as `bandeira`. -/
def brasao (uf : String) (tamanho : Int) : Option String :=
  (parse.uf uf true).bind fun code =>
    (brasaoTable.lookup code).map fun fr =>
      wikimediaURL ++ (fr.1 ++ toString tamanho ++ fr.2)

/-- A minimal model of a `pandas.DataFrame`: an ordered list of column
names and rows mapping column names to cell values. -/
structure DataFrame where
  columns : List String
  rows : List (String → Option String)

/-- Model of `df[[c1, ..., ck]]`: keeps exactly the requested columns,
in the requested order, and fails (pandas `KeyError`) when one of them
is absent from the frame. -/
def selectCols (df : DataFrame) (cols : List String) : Option DataFrame :=
  if cols.all (fun c => df.columns.contains c) then
    some ⟨cols, df.rows.map (fun r c => if cols.contains c then r c else none)⟩
  else none

/-- The URL fetched by `codigos_municipios` (`favoritos.py`, line 169). -/
def municipiosURL : String :=
  "https://raw.githubusercontent.com/betafcc/Municipios-Brasileiros-TSE/master/municipios_brasileiros_tse.json"

/-- The column subset kept by `codigos_municipios` (line 171). -/
def municipiosCols : List String :=
  ["codigo_tse", "codigo_ibge", "nome_municipio", "uf", "capital"]

/-- `favoritos.codigos_municipios`, parameterised by the external JSON
table loader (`pandas.read_json`); `none` from the loader models a
failed fetch. -/
def codigos_municipios (read_json : String → Option DataFrame) :
    Option DataFrame :=
  (read_json municipiosURL).bind fun df => selectCols df municipiosCols

/-- `favoritos.ipca`: `bacen.serie(433, **kwargs)`.  The collaborator
`bacen.serie` is a parameter; `kwargs` is passed through verbatim. -/
def ipca {α β : Type} (serie : Nat → α → β) (kwargs : α) : β :=
  serie 433 kwargs

/-- `favoritos.selic`: `bacen.serie(432, **kwargs)`. -/
def selic {α β : Type} (serie : Nat → α → β) (kwargs : α) : β :=
  serie 432 kwargs

/-- `favoritos.taxa_referencial`: `bacen.serie(226, **kwargs)`. -/
def taxa_referencial {α β : Type} (serie : Nat → α → β) (kwargs : α) : β :=
  serie 226 kwargs

/-- `favoritos.rentabilidade_poupanca`: `bacen.serie(195, **kwargs)`. -/
def rentabilidade_poupanca {α β : Type} (serie : Nat → α → β) (kwargs : α) : β :=
  serie 195 kwargs

/-- The accepted spellings of the daily option of
`reservas_internacionais` (`favoritos.py`, line 360). -/
def periodosDiarios : List String :=
  ["diaria", "diario", "diário", "diária"]

/-- The `ValueError` message of `reservas_internacionais` (lines 363-365). -/
def reservasErrMsg : String :=
  "Período inválido. Escolha um dos seguintes valores: \x27mensal\x27 ou \x27diaria\x27."

/-- `favoritos.reservas_internacionais`: validates `periodo` and
dispatches to `bacen.serie` with series 3546 (monthly) or 13621
(daily); otherwise raises `ValueError` without calling the
collaborator (`Except.error`, the same for every collaborator). -/
def reservas_internacionais {α β : Type} (serie : Nat → α → β)
    (periodo : String) (kwargs : α) : Except String β :=
  if lowerStr periodo = "mensal" then Except.ok (serie 3546 kwargs)
  else if lowerStr periodo ∈ periodosDiarios then Except.ok (serie 13621 kwargs)
  else Except.error reservasErrMsg

/-- `favoritos.risco_brasil`: `ipea.serie(cod='JPM366_EMBI366', index=index)`. -/
def risco_brasil {β : Type} (serie : String → Bool → β) (index : Bool) : β :=
  serie "JPM366_EMBI366" index

/-- The `ValueError` message of `salario_minimo` (lines 382-384). -/
def salarioErrMsg : String :=
  "Tipo inválido. Escolha um dos seguintes valores: \x27nominal\x27, \x27real\x27 ou \x27ppc\x27."

/-- `favoritos.salario_minimo`: validates `tipo` and dispatches to
`ipea.serie` with the matching series code, passing `index` through;
otherwise raises `ValueError` without calling the collaborator. -/
def salario_minimo {β : Type} (serie : String → Bool → β)
    (tipo : String) (index : Bool) : Except String β :=
  if lowerStr tipo = "nominal" then Except.ok (serie "MTE12_SALMIN12" index)
  else if lowerStr tipo = "real" then Except.ok (serie "GAC12_SALMINRE12" index)
  else if lowerStr tipo = "ppc" then Except.ok (serie "GAC12_SALMINDOL12" index)
  else Except.error salarioErrMsg

/-- Number of positions of `s` (end position included) at which `pat`
occurs as a contiguous block. -/
def occ (pat : List Char) : List Char → Nat
  | [] => if pat.isEmpty then 1 else 0
  | c :: s => (if pat.isPrefixOf (c :: s) then 1 else 0) + occ pat s

theorem occ_cons (pat : List Char) (c : Char) (s : List Char) :
    occ pat (c :: s) = (if pat.isPrefixOf (c :: s) then 1 else 0) + occ pat s :=
  rfl

theorem occ_le_occ_cons (pat : List Char) (c : Char) (s : List Char) :
    occ pat s ≤ occ pat (c :: s) := by
  rw [occ_cons]
  exact Nat.le_add_left _ _

theorem isPrefixOf_append_self : ∀ p b : List Char, p.isPrefixOf (p ++ b) = true := by
  intro p
  induction p with
  | nil => intro b; cases b <;> rfl
  | cons c p ih => intro b; simp [List.isPrefixOf, ih b]

theorem one_le_occ_nil_pat : ∀ s : List Char, 1 ≤ occ [] s := by
  intro s
  cases s with
  | nil => exact Nat.le_refl 1
  | cons c s => rw [occ_cons]; simp [List.isPrefixOf]

theorem one_le_occ (pat : List Char) : ∀ a b : List Char, 1 ≤ occ pat (a ++ (pat ++ b)) := by
  intro a
  induction a with
  | nil =>
    intro b
    cases pat with
    | nil => simpa using one_le_occ_nil_pat b
    | cons c p =>
      rw [List.nil_append, List.cons_append, occ_cons, ← List.cons_append,
        isPrefixOf_append_self]
      simp
  | cons x a ih =>
    intro b
    calc 1 ≤ occ pat (a ++ (pat ++ b)) := ih b
    _ ≤ occ pat (x :: (a ++ (pat ++ b))) := occ_le_occ_cons _ _ _

theorem occ_cons_pat_cons_le (c : Char) (pat : List Char) :
    ∀ (s : List Char) (x : Char), occ (c :: pat) (x :: s) ≤ occ pat s := by
  intro s
  induction s with
  | nil =>
    intro x
    cases pat with
    | nil =>
      rw [occ_cons]
      simp only [occ]
      split <;> simp
    | cons d p =>
      rw [occ_cons]
      simp [occ, List.isPrefixOf]
  | cons y s ih =>
    intro x
    rw [occ_cons (c :: pat) x (y :: s), occ_cons pat y s]
    have h1 : occ (c :: pat) (y :: s) ≤ occ pat s := ih y
    have h2 : (if (c :: pat).isPrefixOf (x :: y :: s) then 1 else 0)
        ≤ (if pat.isPrefixOf (y :: s) then 1 else 0) := by
      by_cases h : (c :: pat).isPrefixOf (x :: y :: s)
      · have : pat.isPrefixOf (y :: s) := by
          simp only [List.isPrefixOf, Bool.and_eq_true, beq_iff_eq] at h
          exact h.2
        simp [h, this]
      · simp [h]
    exact Nat.add_le_add h2 h1

theorem occ_cons_pat_le (c : Char) (pat : List Char) (s : List Char) :
    occ (c :: pat) s ≤ occ pat s := by
  cases s with
  | nil => simp [occ]
  | cons x s =>
    calc occ (c :: pat) (x :: s) ≤ occ pat s := occ_cons_pat_cons_le c pat s x
    _ ≤ occ pat (x :: s) := occ_le_occ_cons _ _ _

theorem occ_append_pat_le (pat : List Char) : ∀ (q : List Char) (s : List Char),
    occ (q ++ pat) s ≤ occ pat s := by
  intro q
  induction q with
  | nil => intro s; exact Nat.le_refl _
  | cons c q ih =>
    intro s
    calc occ ((c :: q) ++ pat) s = occ (c :: (q ++ pat)) s := rfl
    _ ≤ occ (q ++ pat) s := occ_cons_pat_le _ _ _
    _ ≤ occ pat s := ih s

theorem occ_singleton_cons (c x : Char) (s : List Char) :
    occ [c] (x :: s) = (if c = x then 1 else 0) + occ [c] s := by
  rw [occ_cons]
  congr 1
  simp [List.isPrefixOf]

theorem occ_singleton_append (c : Char) : ∀ a b : List Char,
    occ [c] (a ++ b) = occ [c] a + occ [c] b := by
  intro a
  induction a with
  | nil => intro b; simp [occ]
  | cons x a ih =>
    intro b
    rw [List.cons_append, occ_singleton_cons, ih, occ_singleton_cons,
      Nat.add_assoc]

theorem occ_singleton_eq_zero {c : Char} : ∀ {s : List Char},
    (∀ x ∈ s, x ≠ c) → occ [c] s = 0 := by
  intro s
  induction s with
  | nil => intro _; simp [occ]
  | cons x s ih =>
    intro h
    rw [occ_singleton_cons]
    have hx : c ≠ x := fun hcx => h x (List.mem_cons_self x s) hcx.symm
    rw [if_neg hx, ih fun y hy => h y (List.mem_cons_of_mem x hy), Nat.add_zero]

/-- The ten decimal digit characters. -/
def digitChars : List Char :=
  ['0', '1', '2', '3', '4', '5', '6', '7', '8', '9']

theorem digitChar_mem {k : Nat} (h : k < 10) : Nat.digitChar k ∈ digitChars := by
  interval_cases k <;> decide

theorem toDigitsCore_mem : ∀ (fuel n : Nat) (acc : List Char),
    (∀ c ∈ acc, c ∈ digitChars) →
    ∀ c ∈ Nat.toDigitsCore 10 fuel n acc, c ∈ digitChars := by
  intro fuel
  induction fuel with
  | zero =>
    intro n acc h c hc
    simp only [Nat.toDigitsCore] at hc
    exact h c hc
  | succ f ih =>
    intro n acc h c hc
    have hd : Nat.digitChar (n % 10) ∈ digitChars :=
      digitChar_mem (Nat.mod_lt n (by decide))
    have hacc : ∀ c ∈ Nat.digitChar (n % 10) :: acc, c ∈ digitChars := by
      intro c hc
      rcases List.mem_cons.mp hc with h1 | h2
      · exact h1 ▸ hd
      · exact h c h2
    simp only [Nat.toDigitsCore] at hc
    split at hc
    · exact hacc c hc
    · exact ih (n / 10) _ hacc c hc

theorem natRepr_mem (n : Nat) : ∀ c ∈ (Nat.repr n).data, c ∈ digitChars := by
  have h : (Nat.repr n).data = Nat.toDigits 10 n := rfl
  rw [h, Nat.toDigits]
  exact toDigitsCore_mem (n + 1) n [] (by simp)

/-- Every character of the decimal rendering of an integer is a digit
or the minus sign. -/
theorem intToString_mem (t : Int) :
    ∀ c ∈ (toString t).data, c ∈ '-' :: digitChars := by
  cases t with
  | ofNat m =>
    have h : toString (Int.ofNat m) = Nat.repr m := rfl
    rw [h]
    intro c hc
    exact List.mem_cons_of_mem _ (natRepr_mem m c hc)
  | negSucc m =>
    have h : toString (Int.negSucc m) = "-" ++ Nat.repr (m + 1) := rfl
    rw [h]
    intro c hc
    rw [String.data_append] at hc
    rcases List.mem_append.mp hc with h1 | h2
    · rcases List.mem_singleton.mp h1 with rfl
      exact List.mem_cons_self _ _
    · exact List.mem_cons_of_mem _ (natRepr_mem (m + 1) c h2)

theorem intToString_ne_x (t : Int) : ∀ c ∈ (toString t).data, c ≠ 'x' := by
  intro c hc
  have h := intToString_mem t c hc
  have hall : ∀ c ∈ '-' :: digitChars, c ≠ 'x' := by decide
  exact hall c h

/-- A successful association-list lookup yields a member of the list. -/
theorem lookup_mem {α β : Type} [BEq α] [LawfulBEq α] :
    ∀ (l : List (α × β)) (k : α) (v : β), l.lookup k = some v → (k, v) ∈ l := by
  intro l
  induction l with
  | nil => intro k v h; simp [List.lookup] at h
  | cons e es ih =>
    intro k v h
    rw [List.lookup_cons] at h
    cases hbeq : k == e.1 with
    | false =>
      rw [hbeq] at h
      exact List.mem_cons_of_mem _ (ih k v h)
    | true =>
      rw [hbeq] at h
      have h2 : e.2 = v := Option.some.inj h
      have h1 : k = e.1 := eq_of_beq hbeq
      rcases e with ⟨k', v'⟩
      rw [h1, ← h2]
      exact List.mem_cons_self _ _

/-- Splits a character list at the first occurrence of the block
`px`, returning the part before and the part after it. -/
def splitPx : List Char → Option (List Char × List Char)
  | [] => none
  | c :: rest =>
    if c = 'p' ∧ rest.head? = some 'x' then some ([], rest.tail)
    else (splitPx rest).map fun pr => (c :: pr.1, pr.2)

theorem splitPx_append :
    ∀ a b : List Char, (∀ c ∈ a, c ≠ 'x') →
      splitPx (a ++ 'p' :: 'x' :: b) = some (a, b) := by
  intro a
  induction a with
  | nil => intro b _; simp [splitPx]
  | cons d a ih =>
    intro b hne
    have hda : ∀ c ∈ a, c ≠ 'x' := fun c hc => hne c (List.mem_cons_of_mem d hc)
    have hcond : ¬(d = 'p' ∧ (a ++ 'p' :: 'x' :: b).head? = some 'x') := by
      rintro ⟨-, hhead⟩
      cases a with
      | nil => simp at hhead
      | cons e a' =>
        simp at hhead
        exact hda e (List.mem_cons_self e a') hhead
    rw [List.cons_append, splitPx, if_neg hcond, ih b hda]
    rfl

/-- In `pre ++ m ++ p :: x :: rest` with no `x` in `pre`, `m` or
`rest`, the block `m ++ px` occurs exactly once. -/
theorem occ_fragment (pre rest m : List Char)
    (hpre : ∀ c ∈ pre, c ≠ 'x')
    (hrest : ∀ c ∈ rest, c ≠ 'x')
    (hm : ∀ c ∈ m, c ≠ 'x') :
    occ (m ++ ['p', 'x']) (pre ++ (m ++ 'p' :: 'x' :: rest)) = 1 := by
  have hx : occ ['x'] (pre ++ (m ++ 'p' :: 'x' :: rest)) = 1 := by
    rw [occ_singleton_append, occ_singleton_append,
      occ_singleton_eq_zero hpre, occ_singleton_eq_zero hm,
      occ_singleton_cons, occ_singleton_cons, occ_singleton_eq_zero hrest,
      if_neg (by decide : ¬('x' = 'p')), if_pos rfl]
  have hup : occ (m ++ ['p', 'x']) (pre ++ (m ++ 'p' :: 'x' :: rest)) ≤ 1 := by
    have h1 : m ++ ['p', 'x'] = (m ++ ['p']) ++ ['x'] := by simp
    rw [h1]
    calc occ ((m ++ ['p']) ++ ['x']) (pre ++ (m ++ 'p' :: 'x' :: rest))
        ≤ occ ['x'] (pre ++ (m ++ 'p' :: 'x' :: rest)) := occ_append_pat_le _ _ _
    _ = 1 := hx
  have hlow : 1 ≤ occ (m ++ ['p', 'x']) (pre ++ (m ++ 'p' :: 'x' :: rest)) := by
    have h2 : pre ++ (m ++ 'p' :: 'x' :: rest)
        = pre ++ ((m ++ ['p', 'x']) ++ rest) := by simp
    rw [h2]
    exact one_le_occ _ pre rest
  exact Nat.le_antisymm hup hlow

/-- Checks, for a table entry `(code, pre, post)`, that `pre` has no
`x`, that `post` starts with the block `px`, and that the remainder of
`post` has no `x`. -/
def entryOk (e : String × String × String) : Bool :=
  (e.2.1.data.all fun c => c != 'x') &&
  (e.2.2.data.take 2 == ['p', 'x']) &&
  ((e.2.2.data.drop 2).all fun c => c != 'x')

theorem entryOk_spec {e : String × String × String} (h : entryOk e = true) :
    (∀ c ∈ e.2.1.data, c ≠ 'x') ∧
    e.2.2.data = 'p' :: 'x' :: e.2.2.data.drop 2 ∧
    (∀ c ∈ e.2.2.data.drop 2, c ≠ 'x') := by
  unfold entryOk at h
  rw [Bool.and_eq_true, Bool.and_eq_true] at h
  obtain ⟨⟨h1, h2⟩, h3⟩ := h
  refine ⟨?_, ?_, ?_⟩
  · intro c hc
    exact bne_iff_ne.mp (List.all_eq_true.mp h1 c hc)
  · have ht : e.2.2.data.take 2 = ['p', 'x'] := eq_of_beq h2
    conv_lhs => rw [← List.take_append_drop 2 e.2.2.data]
    rw [ht]
    rfl
  · intro c hc
    exact bne_iff_ne.mp (List.all_eq_true.mp h3 c hc)

theorem bandeiraTable_ok : ∀ e ∈ bandeiraTable, entryOk e = true := by decide

theorem brasaoTable_ok : ∀ e ∈ brasaoTable, entryOk e = true := by decide

theorem wikimediaURL_no_x : ∀ c ∈ wikimediaURL.data, c ≠ 'x' := by decide

theorem parse_uf_true_mem {uf code : String}
    (h : parse.uf uf true = some code) : code ∈ ufCodes ++ extinctCodes := by
  simp only [parse.uf] at h
  split at h
  · rcases Option.some.inj h with rfl
    exact List.mem_append_left _ (by assumption)
  · split at h
    · rcases Option.some.inj h with rfl
      rename_i hc
      exact List.mem_append_right _ hc.2
    · exact absurd h (by simp)

theorem parse_uf_false_mem {uf code : String}
    (h : parse.uf uf false = some code) : code ∈ ufCodes := by
  simp only [parse.uf] at h
  split at h
  · rcases Option.some.inj h with rfl
    assumption
  · split at h
    · rename_i hc
      exact absurd hc.1 (by simp)
    · exact absurd h (by simp)

theorem bandeiraTable_covers :
    ∀ c ∈ ufCodes ++ extinctCodes, (bandeiraTable.lookup c).isSome = true := by
  decide

theorem brasaoTable_covers :
    ∀ c ∈ ufCodes ++ extinctCodes, (brasaoTable.lookup c).isSome = true := by
  decide

theorem geojsonMapping_covers :
    ∀ c ∈ ufCodes, (geojsonMapping.lookup c).isSome = true := by
  decide

/-- For any table entry of a well-formed table, the assembled fragment
contains the block `toString t ++ px` exactly once. -/
theorem table_frag_once (table : List (String × String × String))
    (hok : ∀ e ∈ table, entryOk e = true)
    {code : String} {fr : String × String} (t : Int)
    (hl : table.lookup code = some fr) :
    occ ((toString t).data ++ ['p', 'x']) (fr.1 ++ toString t ++ fr.2).data = 1 := by
  obtain ⟨hpre, hpost, hrest⟩ := entryOk_spec (hok _ (lookup_mem _ _ _ hl))
  have hdata : (fr.1 ++ toString t ++ fr.2).data
      = fr.1.data ++ ((toString t).data ++ fr.2.data) := by
    rw [String.data_append, String.data_append, List.append_assoc]
  rw [hdata, hpost]
  exact occ_fragment _ _ _ hpre hrest (intToString_ne_x t)

/-- Two entries of a well-formed table that assemble to the same URL at
the same size have the same `post` fragment. -/
theorem table_post_eq (table : List (String × String × String))
    (hok : ∀ e ∈ table, entryOk e = true)
    {c₁ c₂ : String} {fr₁ fr₂ : String × String} (t : Int)
    (h₁ : table.lookup c₁ = some fr₁) (h₂ : table.lookup c₂ = some fr₂)
    (heq : wikimediaURL ++ (fr₁.1 ++ toString t ++ fr₁.2)
         = wikimediaURL ++ (fr₂.1 ++ toString t ++ fr₂.2)) :
    fr₁.2 = fr₂.2 := by
  obtain ⟨hpre₁, hpost₁, hrest₁⟩ := entryOk_spec (hok _ (lookup_mem _ _ _ h₁))
  obtain ⟨hpre₂, hpost₂, hrest₂⟩ := entryOk_spec (hok _ (lookup_mem _ _ _ h₂))
  have hshape : ∀ fr : String × String,
      (wikimediaURL ++ (fr.1 ++ toString t ++ fr.2)).data
      = (wikimediaURL.data ++ (fr.1.data ++ (toString t).data)) ++ fr.2.data := by
    intro fr
    rw [String.data_append, String.data_append, String.data_append,
      ← List.append_assoc, ← List.append_assoc]
  have hnox : ∀ fr : String × String, (∀ c ∈ fr.1.data, c ≠ 'x') →
      ∀ c ∈ wikimediaURL.data ++ (fr.1.data ++ (toString t).data), c ≠ 'x' := by
    intro fr hp c hc
    rcases List.mem_append.mp hc with h | h
    · exact wikimediaURL_no_x c h
    · rcases List.mem_append.mp h with h | h
      · exact hp c h
      · exact intToString_ne_x t c h
  have hdata := congrArg String.data heq
  rw [hshape fr₁, hshape fr₂, hpost₁, hpost₂] at hdata
  have hsp := congrArg splitPx hdata
  rw [splitPx_append _ _ (hnox fr₁ hpre₁), splitPx_append _ _ (hnox fr₂ hpre₂)]
    at hsp
  have hrest : fr₁.2.data.drop 2 = fr₂.2.data.drop 2 :=
    congrArg Prod.snd (Option.some.inj hsp)
  apply String.ext
  rw [hpost₁, hpost₂, hrest]

theorem bandeiraKeys_resolve :
    ∀ c ∈ bandeiraTable.map Prod.fst, parse.uf c true = some c := by
  decide

theorem brasaoKeys_resolve :
    ∀ c ∈ brasaoTable.map Prod.fst, parse.uf c true = some c := by
  decide

theorem bandeiraKeys_lookup :
    ∀ c ∈ bandeiraTable.map Prod.fst, (bandeiraTable.lookup c).isSome = true := by
  decide

theorem brasaoKeys_lookup :
    ∀ c ∈ brasaoTable.map Prod.fst, (brasaoTable.lookup c).isSome = true := by
  decide

theorem bandeira_post_inj :
    ∀ c₁ ∈ bandeiraTable.map Prod.fst, ∀ c₂ ∈ bandeiraTable.map Prod.fst,
      (bandeiraTable.lookup c₁).map Prod.snd
        = (bandeiraTable.lookup c₂).map Prod.snd → c₁ = c₂ := by
  decide

theorem brasao_post_inj :
    ∀ c₁ ∈ brasaoTable.map Prod.fst, ∀ c₂ ∈ brasaoTable.map Prod.fst,
      (brasaoTable.lookup c₁).map Prod.snd
        = (brasaoTable.lookup c₂).map Prod.snd → c₁ = c₂ := by
  decide

/-- Collects the numeric size tokens of a character list: for every
block `px`, the maximal run of digit characters immediately before it
(`acc` carries the current digit run, reversed). -/
def pxRuns : List Char → List Char → List (List Char)
  | _, [] => []
  | _, [_] => []
  | acc, c :: d :: rest =>
    if c = 'p' ∧ d = 'x' then acc.reverse :: pxRuns [] rest
    else if c.isDigit then pxRuns (c :: acc) (d :: rest)
    else pxRuns [] (d :: rest)

set_option maxRecDepth 8192 in
/-- C3: for every state code accepted by the resolver (extinct allowed)
and every integer `tamanho` — non-positive values included, passed
through verbatim and unvalidated — `bandeira` and `brasao` return the
fixed base URL concatenated with the per-state table fragment, in which
the decimal rendering of `tamanho` followed by `px` occurs exactly
once; in particular `bandeira('SC', 200)` and `brasao('SC', 200)`
contain the substring `200px` and their only numeric size token is
`200`.  No network access occurs: both functions are pure. -/
theorem C3_size_token_once :
    (∀ (uf code : String) (t : Int), parse.uf uf true = some code →
      ∃ fr : String × String, bandeiraTable.lookup code = some fr ∧
        bandeira uf t = some (wikimediaURL ++ (fr.1 ++ toString t ++ fr.2)) ∧
        occ ((toString t).data ++ ['p', 'x']) (fr.1 ++ toString t ++ fr.2).data = 1)
    ∧ (∀ (uf code : String) (t : Int), parse.uf uf true = some code →
      ∃ fr : String × String, brasaoTable.lookup code = some fr ∧
        brasao uf t = some (wikimediaURL ++ (fr.1 ++ toString t ++ fr.2)) ∧
        occ ((toString t).data ++ ['p', 'x']) (fr.1 ++ toString t ++ fr.2).data = 1)
    ∧ (∃ u : String, bandeira "SC" 200 = some u ∧
        1 ≤ occ "200px".data u.data ∧ pxRuns [] u.data = [['2', '0', '0']])
    ∧ (∃ u : String, brasao "SC" 200 = some u ∧
        1 ≤ occ "200px".data u.data ∧ pxRuns [] u.data = [['2', '0', '0']]) := by
  refine ⟨?_, ?_, ?_, ?_⟩
  · intro uf code t h
    obtain ⟨fr, hfr⟩ :=
      Option.isSome_iff_exists.mp (bandeiraTable_covers code (parse_uf_true_mem h))
    exact ⟨fr, hfr, by simp [bandeira, h, hfr],
      table_frag_once _ bandeiraTable_ok t hfr⟩
  · intro uf code t h
    obtain ⟨fr, hfr⟩ :=
      Option.isSome_iff_exists.mp (brasaoTable_covers code (parse_uf_true_mem h))
    exact ⟨fr, hfr, by simp [brasao, h, hfr],
      table_frag_once _ brasaoTable_ok t hfr⟩
  · exact ⟨_, rfl, by decide, by decide⟩
  · exact ⟨_, rfl, by decide, by decide⟩

theorem C3_size_token_once_witness :
    parse.uf "SC" true = some "SC" ∧
    (∃ fr : String × String, bandeiraTable.lookup "SC" = some fr ∧
      bandeira "SC" 200 = some (wikimediaURL ++ (fr.1 ++ toString (200 : Int) ++ fr.2)) ∧
      occ ((toString (200 : Int)).data ++ ['p', 'x'])
        (fr.1 ++ toString (200 : Int) ++ fr.2).data = 1) :=
  ⟨by decide, C3_size_token_once.1 "SC" "SC" 200 (by decide)⟩

/-- C4: for each of `bandeira` and `brasao`, with the size fixed,
distinct valid state codes (the extinct `FN` and `GB` included) yield
distinct URLs, and for a fixed code and size the result is always the
same string (the embedding is a pure function, so stability across
calls is reflexivity). -/
theorem C4_distinct_stable :
    (∀ (t : Int) (c₁ c₂ : String), c₁ ∈ bandeiraTable.map Prod.fst →
      c₂ ∈ bandeiraTable.map Prod.fst → c₁ ≠ c₂ →
      bandeira c₁ t ≠ bandeira c₂ t)
    ∧ (∀ (t : Int) (c₁ c₂ : String), c₁ ∈ brasaoTable.map Prod.fst →
      c₂ ∈ brasaoTable.map Prod.fst → c₁ ≠ c₂ →
      brasao c₁ t ≠ brasao c₂ t)
    ∧ (∀ (uf : String) (t : Int),
      bandeira uf t = bandeira uf t ∧ brasao uf t = brasao uf t) := by
  refine ⟨?_, ?_, fun uf t => ⟨rfl, rfl⟩⟩
  · intro t c₁ c₂ h₁ h₂ hne heq
    obtain ⟨fr₁, hl₁⟩ := Option.isSome_iff_exists.mp (bandeiraKeys_lookup c₁ h₁)
    obtain ⟨fr₂, hl₂⟩ := Option.isSome_iff_exists.mp (bandeiraKeys_lookup c₂ h₂)
    have e₁ : bandeira c₁ t = some (wikimediaURL ++ (fr₁.1 ++ toString t ++ fr₁.2)) := by
      simp [bandeira, bandeiraKeys_resolve c₁ h₁, hl₁]
    have e₂ : bandeira c₂ t = some (wikimediaURL ++ (fr₂.1 ++ toString t ++ fr₂.2)) := by
      simp [bandeira, bandeiraKeys_resolve c₂ h₂, hl₂]
    rw [e₁, e₂] at heq
    have hpost := table_post_eq bandeiraTable bandeiraTable_ok t hl₁ hl₂
      (Option.some.inj heq)
    refine hne (bandeira_post_inj c₁ h₁ c₂ h₂ ?_)
    rw [hl₁, hl₂]
    simp [hpost]
  · intro t c₁ c₂ h₁ h₂ hne heq
    obtain ⟨fr₁, hl₁⟩ := Option.isSome_iff_exists.mp (brasaoKeys_lookup c₁ h₁)
    obtain ⟨fr₂, hl₂⟩ := Option.isSome_iff_exists.mp (brasaoKeys_lookup c₂ h₂)
    have e₁ : brasao c₁ t = some (wikimediaURL ++ (fr₁.1 ++ toString t ++ fr₁.2)) := by
      simp [brasao, brasaoKeys_resolve c₁ h₁, hl₁]
    have e₂ : brasao c₂ t = some (wikimediaURL ++ (fr₂.1 ++ toString t ++ fr₂.2)) := by
      simp [brasao, brasaoKeys_resolve c₂ h₂, hl₂]
    rw [e₁, e₂] at heq
    have hpost := table_post_eq brasaoTable brasaoTable_ok t hl₁ hl₂
      (Option.some.inj heq)
    refine hne (brasao_post_inj c₁ h₁ c₂ h₂ ?_)
    rw [hl₁, hl₂]
    simp [hpost]

theorem C4_distinct_stable_witness :
    bandeira "FN" 100 ≠ bandeira "GB" 100 :=
  C4_distinct_stable.1 100 "FN" "GB" (by decide) (by decide) (by decide)

/-- C1: `reservas_internacionais` dispatches to `bacen.serie` with
series 3546 when the lowercased `periodo` is `mensal`, with 13621 when
it is one of the four accepted daily spellings, and otherwise raises
the invalid-option error listing the accepted values, without calling
the collaborator (the error is the same for every collaborator). -/
theorem C1_reservas_dispatch :
    (∀ (α β : Type) (serie : Nat → α → β) (p : String) (k : α),
      lowerStr p = "mensal" →
      reservas_internacionais serie p k = Except.ok (serie 3546 k))
    ∧ (∀ (α β : Type) (serie : Nat → α → β) (p : String) (k : α),
      lowerStr p ∈ periodosDiarios →
      reservas_internacionais serie p k = Except.ok (serie 13621 k))
    ∧ (∀ (α β : Type) (serie : Nat → α → β) (p : String) (k : α),
      lowerStr p ≠ "mensal" → lowerStr p ∉ periodosDiarios →
      reservas_internacionais serie p k = Except.error reservasErrMsg)
    ∧ 1 ≤ occ "mensal".data reservasErrMsg.data
    ∧ 1 ≤ occ "diaria".data reservasErrMsg.data := by
  refine ⟨?_, ?_, ?_, by decide, by decide⟩
  · intro α β serie p k h
    simp [reservas_internacionais, h]
  · intro α β serie p k h
    have hne : lowerStr p ≠ "mensal" := by
      intro hm
      rw [hm] at h
      exact absurd h (by decide)
    simp [reservas_internacionais, hne, h]
  · intro α β serie p k h1 h2
    simp [reservas_internacionais, h1, h2]

theorem C1_reservas_dispatch_witness :
    lowerStr "MENSAL" = "mensal" ∧
    reservas_internacionais (fun n (_ : Unit) => n) "MENSAL" () = Except.ok 3546 ∧
    lowerStr "DIÁRIO" ∈ periodosDiarios ∧
    reservas_internacionais (fun n (_ : Unit) => n) "DIÁRIO" () = Except.ok 13621 ∧
    lowerStr "anual" ≠ "mensal" ∧ lowerStr "anual" ∉ periodosDiarios ∧
    reservas_internacionais (fun n (_ : Unit) => n) "anual" ()
      = Except.error reservasErrMsg :=
  ⟨by decide, C1_reservas_dispatch.1 Unit Nat _ "MENSAL" () (by decide),
   by decide, C1_reservas_dispatch.2.1 Unit Nat _ "DIÁRIO" () (by decide),
   by decide, by decide,
   C1_reservas_dispatch.2.2.1 Unit Nat _ "anual" () (by decide) (by decide)⟩

/-- C2: `salario_minimo` dispatches to `ipea.serie` with the series
code matching the lowercased `tipo` (`nominal`, `real` or `ppc`),
passing the index flag through unchanged — so `real` and `REAL`
dispatch identically — and otherwise raises the invalid-option error
listing the accepted values, without calling the collaborator. -/
theorem C2_salario_dispatch :
    (∀ (β : Type) (serie : String → Bool → β) (tp : String) (i : Bool),
      lowerStr tp = "nominal" →
      salario_minimo serie tp i = Except.ok (serie "MTE12_SALMIN12" i))
    ∧ (∀ (β : Type) (serie : String → Bool → β) (tp : String) (i : Bool),
      lowerStr tp = "real" →
      salario_minimo serie tp i = Except.ok (serie "GAC12_SALMINRE12" i))
    ∧ (∀ (β : Type) (serie : String → Bool → β) (tp : String) (i : Bool),
      lowerStr tp = "ppc" →
      salario_minimo serie tp i = Except.ok (serie "GAC12_SALMINDOL12" i))
    ∧ (∀ (β : Type) (serie : String → Bool → β) (i : Bool),
      salario_minimo serie "REAL" i = salario_minimo serie "real" i)
    ∧ (∀ (β : Type) (serie : String → Bool → β) (tp : String) (i : Bool),
      lowerStr tp ≠ "nominal" → lowerStr tp ≠ "real" → lowerStr tp ≠ "ppc" →
      salario_minimo serie tp i = Except.error salarioErrMsg)
    ∧ 1 ≤ occ "nominal".data salarioErrMsg.data
    ∧ 1 ≤ occ "real".data salarioErrMsg.data
    ∧ 1 ≤ occ "ppc".data salarioErrMsg.data := by
  refine ⟨?_, ?_, ?_, ?_, ?_, by decide, by decide, by decide⟩
  · intro β serie tp i h
    simp [salario_minimo, h]
  · intro β serie tp i h
    have hne : lowerStr tp ≠ "nominal" := by rw [h]; decide
    simp [salario_minimo, hne, h]
  · intro β serie tp i h
    have hne1 : lowerStr tp ≠ "nominal" := by rw [h]; decide
    have hne2 : lowerStr tp ≠ "real" := by rw [h]; decide
    simp [salario_minimo, hne1, hne2, h]
  · intro β serie i
    rfl
  · intro β serie tp i h1 h2 h3
    simp [salario_minimo, h1, h2, h3]

theorem C2_salario_dispatch_witness :
    lowerStr "REAL" = "real" ∧
    salario_minimo (fun c (_ : Bool) => c) "REAL" false
      = Except.ok "GAC12_SALMINRE12" ∧
    lowerStr "bogus" ≠ "nominal" ∧ lowerStr "bogus" ≠ "real" ∧
    lowerStr "bogus" ≠ "ppc" ∧
    salario_minimo (fun c (_ : Bool) => c) "bogus" false
      = Except.error salarioErrMsg :=
  ⟨by decide, C2_salario_dispatch.2.1 String _ "REAL" false (by decide),
   by decide, by decide, by decide,
   C2_salario_dispatch.2.2.2.2.1 String _ "bogus" false
     (by decide) (by decide) (by decide)⟩

/-- C7: whenever the upstream JSON table loader succeeds (with the
required columns present, as the real upstream table has them),
`codigos_municipios` returns a table whose columns are exactly
`[codigo_tse, codigo_ibge, nome_municipio, uf, capital]` in that
order, regardless of any extra columns in the upstream source. -/
theorem C7_codigos_municipios_columns :
    ∀ (read_json : String → Option DataFrame) (df : DataFrame),
      read_json municipiosURL = some df →
      (∀ c ∈ municipiosCols, df.columns.contains c = true) →
      ∃ out, codigos_municipios read_json = some out ∧
        out.columns = ["codigo_tse", "codigo_ibge", "nome_municipio", "uf", "capital"] := by
  intro rj df h hc
  have hall : municipiosCols.all (fun c => df.columns.contains c) = true :=
    List.all_eq_true.mpr hc
  refine ⟨⟨municipiosCols,
    df.rows.map fun r c => if municipiosCols.contains c then r c else none⟩, ?_, rfl⟩
  simp [codigos_municipios, h, selectCols, hall]
  intro x hx
  simpa using hc x hx

theorem C7_codigos_municipios_columns_witness :
    ((fun _ : String =>
        some (⟨["extra_col", "codigo_tse", "codigo_ibge", "nome_municipio",
          "uf", "capital"], []⟩ : DataFrame)) municipiosURL
      = some (⟨["extra_col", "codigo_tse", "codigo_ibge", "nome_municipio",
          "uf", "capital"], []⟩ : DataFrame)) ∧
    (∀ c ∈ municipiosCols,
      (⟨["extra_col", "codigo_tse", "codigo_ibge", "nome_municipio",
        "uf", "capital"], []⟩ : DataFrame).columns.contains c = true) ∧
    (∃ out, codigos_municipios (fun _ =>
        some ⟨["extra_col", "codigo_tse", "codigo_ibge", "nome_municipio",
          "uf", "capital"], []⟩) = some out ∧
      out.columns = ["codigo_tse", "codigo_ibge", "nome_municipio", "uf", "capital"]) :=
  ⟨rfl, by decide, C7_codigos_municipios_columns _ _ rfl (by decide)⟩

/-- C8: each time-series shortcut forwards to its collaborator with a
fixed series identifier and the caller's options passed through
verbatim; the identifier does not depend on the options. -/
theorem C8_fixed_series :
    (∀ (α β : Type) (serie : Nat → α → β) (k : α),
      ipca serie k = serie 433 k ∧ selic serie k = serie 432 k ∧
      taxa_referencial serie k = serie 226 k ∧
      rentabilidade_poupanca serie k = serie 195 k)
    ∧ (∀ (β : Type) (serie : String → Bool → β) (i : Bool),
      risco_brasil serie i = serie "JPM366_EMBI366" i) :=
  ⟨fun _ _ _ _ => ⟨rfl, rfl, rfl, rfl⟩, fun _ _ _ => rfl⟩

/-- C5: for every state identifier that resolves (extinct not
allowed), `geojson` maps the canonical code through the static table
(`BR` to 100, `AC` to 12, `SC` to 42, and so on over the 28 entries),
fetches the URL built from that number and returns the collaborator's
parsed structure unmodified. -/
theorem C5_geojson_dispatch :
    (∀ (J : Type) (fetch : String → J) (uf code : String),
      parse.uf uf false = some code →
      ∃ n : Nat, geojsonMapping.lookup code = some n ∧
        geojson fetch uf = some (fetch (geojsonUrlOf n)))
    ∧ geojsonMapping.lookup "BR" = some 100
    ∧ geojsonMapping.lookup "AC" = some 12
    ∧ geojsonMapping.lookup "SC" = some 42
    ∧ geojsonMapping.length = 28 := by
  refine ⟨?_, by decide, by decide, by decide, by decide⟩
  intro J fetch uf code h
  obtain ⟨n, hn⟩ :=
    Option.isSome_iff_exists.mp (geojsonMapping_covers code (parse_uf_false_mem h))
  exact ⟨n, hn, by simp [geojson, h, hn]⟩

theorem C5_geojson_dispatch_witness :
    parse.uf "SC" false = some "SC" ∧
    (∃ n : Nat, geojsonMapping.lookup "SC" = some n ∧
      geojson (fun u => u) "SC" = some (geojsonUrlOf n)) :=
  ⟨by decide, C5_geojson_dispatch.1 String (fun u => u) "SC" "SC" (by decide)⟩

/-- C6: `geojson` does not accept extinct state codes: on them (in
particular on `GB`) the resolver's invalid-identifier error (`none`)
propagates, and no fetch happens — the result is `none` for every
fetch collaborator. -/
theorem C6_geojson_rejects_extinct :
    (∀ (J : Type) (fetch : String → J) (uf : String),
      upperStr uf ∈ extinctCodes → geojson fetch uf = none)
    ∧ (∀ (J : Type) (fetch : String → J), geojson fetch "GB" = none) := by
  have key : ∀ (J : Type) (fetch : String → J) (uf : String),
      upperStr uf ∈ extinctCodes → geojson fetch uf = none := by
    intro J fetch uf h
    have hnot : upperStr uf ∉ ufCodes := by
      have hdis : ∀ c ∈ extinctCodes, c ∉ ufCodes := by decide
      exact hdis _ h
    simp [geojson, parse.uf, hnot]
  exact ⟨key, fun J fetch => key J fetch "GB" (by decide)⟩

theorem C6_geojson_rejects_extinct_witness :
    upperStr "gb" ∈ extinctCodes ∧ geojson (fun u => u) "gb" = none :=
  ⟨by decide, C6_geojson_rejects_extinct.1 String (fun u => u) "gb" (by decide)⟩

/-- C9: the `bandeira` and `brasao` tables are keyed on exactly the
same 30 codes — the 28 current codes (`BR` included) plus the extinct
`FN` and `GB` — so every identifier the resolver accepts with extinct
codes permitted has an entry in both tables. -/
theorem C9_same_keys :
    bandeiraTable.map Prod.fst = brasaoTable.map Prod.fst
    ∧ (bandeiraTable.map Prod.fst).length = 30
    ∧ (∀ c : String,
        c ∈ bandeiraTable.map Prod.fst ↔ (c ∈ ufCodes ∨ c ∈ extinctCodes))
    ∧ (∀ uf code : String, parse.uf uf true = some code →
        (bandeiraTable.lookup code).isSome = true ∧
        (brasaoTable.lookup code).isSome = true) := by
  refine ⟨by decide, by decide, ?_, ?_⟩
  · intro c
    have hperm : (bandeiraTable.map Prod.fst).Perm (ufCodes ++ extinctCodes) := by
      decide
    rw [hperm.mem_iff, List.mem_append]
  · intro uf code h
    exact ⟨bandeiraTable_covers code (parse_uf_true_mem h),
      brasaoTable_covers code (parse_uf_true_mem h)⟩

theorem C9_same_keys_witness :
    parse.uf "gb" true = some "GB" ∧
    (bandeiraTable.lookup "GB").isSome = true ∧
    (brasaoTable.lookup "GB").isSome = true :=
  ⟨by decide, C9_same_keys.2.2.2 "gb" "GB" (by decide)⟩

/-- C10: the static region-code table inside `geojson` is injective —
its 28 numeric values are pairwise distinct — so two distinct
canonical state codes never fetch the same URL. -/
theorem C10_region_codes_injective :
    (geojsonMapping.map Prod.snd).Nodup
    ∧ geojsonMapping.length = 28
    ∧ (∀ c₁ ∈ geojsonMapping.map Prod.fst, ∀ c₂ ∈ geojsonMapping.map Prod.fst,
        c₁ ≠ c₂ →
        (geojsonMapping.lookup c₁).map geojsonUrlOf
          ≠ (geojsonMapping.lookup c₂).map geojsonUrlOf) :=
  ⟨by decide, by decide, by decide⟩

theorem C10_region_codes_injective_witness :
    (geojsonMapping.lookup "BR").map geojsonUrlOf
      ≠ (geojsonMapping.lookup "SC").map geojsonUrlOf :=
  C10_region_codes_injective.2.2 "BR" (by decide) "SC" (by decide) (by decide)

end DadosAbertosBrasil
